import Mathlib

/-!
Shallow embedding of the teleoperation control loop of
src/vive_ros2/scripts/vive_teleopt.py (function main, lines 106-183).

Modelling conventions:
* Python floats are modelled as rationals; every numeric literal of the
  source (0.4, 0.3, 1.6, 0.1, 0.035, 0.2, 0.06, 0.08) is an exact decimal.
* The SE3 target pose (desired_transform_se3) is modelled as a translation
  vector together with a formal list of roll-pitch-yaw increment vectors.
  Line 154 composes SE3(cart) * desired * SE3.RPY(rpy): in homogeneous
  coordinates a left factor that is a pure translation adds cart to the
  translation column and leaves the rotation block unchanged, and a right
  factor that is a pure rotation (SE3.RPY has zero translation) leaves the
  translation column unchanged and right-multiplies the rotation block.
  Hence the composition is, exactly: position := position + cart, and
  orientation := orientation followed by one more formal RPY factor.
* The IK solver panda.ikine_LM (external library, line 156) is a parameter
  ik : Pose -> Joints -> Option Joints; some q models sol.success with
  sol.q = q, none models a failed solve.
* The check result_future.done() or result_future.cancelled() at line 163
  polls a ROS future whose completion time is external; it is modelled as
  an oracle Boolean supplied to each tick.
-/

/-- A 3-vector of rationals (positions, position deltas, rpy triples). -/
structure Vec3 where
  x : ℚ
  y : ℚ
  z : ℚ
  deriving DecidableEq, Repr

/-- Componentwise vector addition. -/
def vadd (a b : Vec3) : Vec3 :=
  ⟨a.x + b.x, a.y + b.y, a.z + b.z⟩

/-- Componentwise vector subtraction (numpy array subtraction, line 130). -/
def vsub (a b : Vec3) : Vec3 :=
  ⟨a.x - b.x, a.y - b.y, a.z - b.z⟩

/-- The zero vector. -/
def vzero : Vec3 :=
  ⟨0, 0, 0⟩

/-- A 3x3 rational matrix, stored by rows. -/
structure Mat3 where
  r0 : Vec3
  r1 : Vec3
  r2 : Vec3
  deriving DecidableEq, Repr

/-- Dot product of two 3-vectors. -/
def dot (a b : Vec3) : ℚ :=
  a.x * b.x + a.y * b.y + a.z * b.z

/-- Matrix-vector product (np.matmul at lines 142 and 148). -/
def matVec (m : Mat3) (v : Vec3) : Vec3 :=
  ⟨dot m.r0 v, dot m.r1 v, dot m.r2 v⟩

/-- The identity matrix (np.eye(3), line 109: initial calibration). -/
def idMat : Mat3 :=
  ⟨⟨1, 0, 0⟩, ⟨0, 1, 0⟩, ⟨0, 0, 1⟩⟩

/-- One decoded tracker/controller sample (the latest_tracker_message read
at line 119). Fields follow the data model: position x y z, angular rates
p q r, the three buttons, the validity flag, and the rotation exposed as a
derived 3x3 matrix (rotation_as_scipy_transform().as_matrix(), line 139). -/
structure TrackerSample where
  x : ℚ
  y : ℚ
  z : ℚ
  p : ℚ
  q : ℚ
  r : ℚ
  trigger : Bool
  grip_button : Bool
  menu_button : Bool
  valid : Bool
  rot : Mat3
  deriving DecidableEq, Repr

/-- The position triple of a sample (np.array([x, y, z]), lines 126-130). -/
def TrackerSample.pos (d : TrackerSample) : Vec3 :=
  ⟨d.x, d.y, d.z⟩

/-- The target pose desired_transform_se3: translation plus the formal list
of RPY factors right-composed onto the initial orientation (line 154). -/
structure Pose where
  pos : Vec3
  rotOps : List Vec3
  deriving DecidableEq, Repr

/-- A joint-angle vector (the 7 Panda joints; length is irrelevant here). -/
abbrev Joints : Type :=
  List ℚ

/-- A gripper actuator request (lines 166 and 174). -/
inductive GripperCmd where
  | grasp (width speed epsilon : ℚ)
  | moveTo (width speed : ℚ)
  deriving DecidableEq, Repr

/-- The control-loop state mutated across iterations of the while loop:
desired_transform_se3, calibration_transformation, current_joint_positions
(the IK seed), joint_solutions, last_pos, gripper_open. -/
structure TeleopState where
  desired : Pose
  calibration : Mat3
  current_joint_positions : Joints
  joint_solutions : Joints
  last_pos : Option Vec3
  gripper_open : Bool
  deriving DecidableEq, Repr

/-- The observable outcome of one loop iteration: the successor state, the
joint command published by fsi.publish_joints if any (line 161), and the
gripper request issued if any (lines 166 and 174). -/
structure TickOut where
  state : TeleopState
  jointCmd : Option Joints
  gripCmd : Option GripperCmd
  deriving DecidableEq, Repr

/-- velocity_scale = 0.4 (line 106). -/
def velocity_scale : ℚ :=
  2 / 5

/-- rot_vel_scale = 0.3 (line 107). -/
def rot_vel_scale : ℚ :=
  3 / 10

/-- np.clip(c, a_max=1.6, a_min=-1.6) on one component (line 135). -/
def clipQ (c : ℚ) : ℚ :=
  min (max c (-(8 / 5))) (8 / 5)

/-- Deadband on one component: values with -0.1 <= c <= 0.1 are set to
exactly 0 (line 136). -/
def deadbandQ (c : ℚ) : ℚ :=
  if -(1 / 10) ≤ c ∧ c ≤ 1 / 10 then 0 else c

/-- Clamp followed by deadband on one component, in source order. -/
def processRot (c : ℚ) : ℚ :=
  deadbandQ (clipQ c)

/-- Componentwise clip of the angular-rate triple (line 135). -/
def clipVec (v : Vec3) : Vec3 :=
  ⟨clipQ v.x, clipQ v.y, clipQ v.z⟩

/-- Componentwise deadband of the angular-rate triple (line 136). -/
def deadbandVec (v : Vec3) : Vec3 :=
  ⟨deadbandQ v.x, deadbandQ v.y, deadbandQ v.z⟩

/-- Axis remap and scaling of the position delta (lines 143-145):
(-vx * velocity_scale, vz * velocity_scale, vy * velocity_scale). -/
def remapPos (v : Vec3) : Vec3 :=
  ⟨-v.x * velocity_scale, v.z * velocity_scale, v.y * velocity_scale⟩

/-- Axis remap and scaling of the processed angular rate (lines 149-151):
(-wy * rot_vel_scale, -wz * rot_vel_scale, wx * rot_vel_scale). -/
def remapRot (w : Vec3) : Vec3 :=
  ⟨-w.y * rot_vel_scale, -w.z * rot_vel_scale, w.x * rot_vel_scale⟩

/-- cartesian_increment (lines 142-146): calibration rotation applied to
the remapped, scaled position delta. -/
def cartIncrement (cal : Mat3) (vel : Vec3) : Vec3 :=
  matVec cal (remapPos vel)

/-- rpy_increment (lines 148-152): calibration rotation applied to the
remapped, scaled, already clamped-and-deadbanded angular rate. -/
def rpyIncrement (cal : Mat3) (rv : Vec3) : Vec3 :=
  matVec cal (remapRot rv)

/-- The target pose produced by line 154 on a trigger tick:
desired := SE3(cartesian_increment) * desired * SE3.RPY(rpy_increment).
The reference position is seeded to the current position when absent
(lines 125-126), so the delta of lines 128-130 is then zero. -/
def integratedPose (s : TeleopState) (d : TrackerSample) : Pose :=
  let lp := s.last_pos.getD d.pos
  let controller_vel := vsub d.pos lp
  let controller_rot_vel := deadbandVec (clipVec ⟨d.p, d.q, d.r⟩)
  ⟨vadd s.desired.pos (cartIncrement s.calibration controller_vel),
   s.desired.rotOps ++ [rpyIncrement s.calibration controller_rot_vel]⟩

/-- Modelled from the spec: gripper_interfaces.FrankaGripperActionClient
is not under src/; per section 4.4 of the spec, "Each issued action
produces an ActionHandle", so do_grasp_async returns a handle, never
absence. The handle is identified with the request it carries. -/
def do_grasp_async (width speed epsilon : ℚ) : Option GripperCmd :=
  some (GripperCmd.grasp width speed epsilon)

/-- Modelled from the spec: gripper_interfaces.FrankaGripperActionClient
is not under src/; per section 4.4 of the spec, "Each issued action
produces an ActionHandle", so do_move_async returns a handle, never
absence. The handle is identified with the request it carries. -/
def do_move_async (width speed : ℚ) : Option GripperCmd :=
  some (GripperCmd.moveTo width speed)

/-- Lines 138-161: the menu / trigger branch. Menu pressed replaces the
calibration matrix (lines 138-140). Otherwise, trigger pressed integrates
the pose and runs the IK solve (lines 141-161): on success (some q) both
joint_solutions and the seed current_joint_positions become q and q is
published; on failure nothing is published and the joint state is kept,
while the accumulated target pose is retained either way. -/
def motionStep (ik : Pose → Joints → Option Joints) (s : TeleopState)
    (d : TrackerSample) : TeleopState × Option Joints :=
  if d.menu_button then
    ({ s with calibration := d.rot }, none)
  else if d.trigger then
    let target := integratedPose s d
    match ik target s.current_joint_positions with
    | some jq =>
        ({ s with desired := target, joint_solutions := jq,
                  current_joint_positions := jq }, some jq)
    | none => ({ s with desired := target }, none)
  else (s, none)

/-- Lines 163-179: the gripper branch. A request is issued iff the grip
button is down AND the previous result future polls done-or-cancelled;
gripper_open toggles exactly when the async call returned a handle. -/
def gripperStep (s : TeleopState) (d : TrackerSample) (resultDone : Bool) :
    Option GripperCmd × Bool :=
  if d.grip_button && resultDone then
    if s.gripper_open then
      match do_grasp_async (7 / 200) (1 / 5) (3 / 50) with
      | some cmd => (some cmd, false)
      | none => (none, s.gripper_open)
    else
      match do_move_async (2 / 25) (1 / 5) with
      | some cmd => (some cmd, true)
      | none => (none, s.gripper_open)
  else (none, s.gripper_open)

/-- One iteration of the while loop (lines 118-183). Absent data (lines
120-124): the reference last_pos is reset to absent and the iteration is
skipped entirely (continue), issuing no commands. Present data: the menu /
trigger branch runs, then the gripper branch, and last_pos is set to the
current position at the end of the tick (line 183) on every such path. -/
def tick (ik : Pose → Joints → Option Joints) (s : TeleopState)
    (data : Option TrackerSample) (resultDone : Bool) : TickOut :=
  match data with
  | none => ⟨{ s with last_pos := none }, none, none⟩
  | some d =>
    let mr := motionStep ik s d
    let gr := gripperStep s d resultDone
    ⟨{ mr.1 with gripper_open := gr.2, last_pos := some d.pos },
     mr.2, gr.1⟩

/-- Iterated ticks over a list of (sample slot content, result-future
oracle) inputs, returning the final control-loop state. -/
def steps (ik : Pose → Joints → Option Joints) :
    TeleopState → List (Option TrackerSample × Bool) → TeleopState
  | s, [] => s
  | s, i :: rest => steps ik (tick ik s i.1 i.2).state rest

/-- Modelled from the spec: vive_tracker_client.ViveTrackerClient is not
under src/, so the code that decides how a sample with valid=false is
surfaced to the loop is missing. Section 3 of the spec says the Shared
Sample Slot holds Option of TrackerSample where "Absence signals device
not currently visible", and section 4.2 groups "valid=false (or absence)"
as one short-circuit condition, which the loop (line 120) implements by
its None check; accordingly the slot exposes an invalid sample as
absence. -/
def exposeSample (raw : Option TrackerSample) : Option TrackerSample :=
  raw.bind fun d => if d.valid then some d else none

/-- One loop iteration fed from the raw slot content through exposeSample. -/
def tickFromSlot (ik : Pose → Joints → Option Joints) (s : TeleopState)
    (raw : Option TrackerSample) (resultDone : Bool) : TickOut :=
  tick ik s (exposeSample raw) resultDone

/-- The loop state right before the first iteration: last_pos = None
(line 116), gripper_open = True (line 95), identity calibration (line
109), desired pose seeded from forward kinematics (here the given start
position with no RPY factors yet), equal seed and solution joints. -/
def initState (p0 : Vec3) (j : Joints) : TeleopState :=
  { desired := ⟨p0, []⟩, calibration := idMat,
    current_joint_positions := j, joint_solutions := j,
    last_pos := none, gripper_open := true }

/-- An IK oracle that always fails, for concrete evaluations. -/
def ikNone : Pose → Joints → Option Joints :=
  fun _ _ => none

/-- A sample with the grip button held down and everything else inert. -/
def heldSample : TrackerSample :=
  { x := 0, y := 0, z := 0, p := 0, q := 0, r := 0,
    trigger := false, grip_button := true, menu_button := false,
    valid := true, rot := idMat }

/-! Helper lemmas about vectors and the processed angular rate. -/

lemma vsubSelf (v : Vec3) : vsub v v = vzero := by
  cases v
  simp [vsub, vzero]

lemma remapPos_vzero : remapPos vzero = vzero := by
  simp [remapPos, vzero]

lemma matVec_vzero (m : Mat3) : matVec m vzero = vzero := by
  simp [matVec, dot, vzero]

lemma vadd_vzero (v : Vec3) : vadd v vzero = v := by
  cases v
  simp [vadd, vzero]

lemma clipQ_lb (c : ℚ) : -(8 / 5) ≤ clipQ c :=
  le_min (le_max_right _ _) (by norm_num)

lemma clipQ_ub (c : ℚ) : clipQ c ≤ 8 / 5 :=
  min_le_right _ _

lemma processRot_lb (c : ℚ) : -(8 / 5) ≤ processRot c := by
  unfold processRot deadbandQ
  split
  · norm_num
  · exact clipQ_lb c

lemma processRot_ub (c : ℚ) : processRot c ≤ 8 / 5 := by
  unfold processRot deadbandQ
  split
  · norm_num
  · exact clipQ_ub c

lemma processRot_deadband (c : ℚ) (h1 : -(1 / 10) ≤ c) (h2 : c ≤ 1 / 10) :
    processRot c = 0 := by
  have hc : clipQ c = c := by
    unfold clipQ
    have hmax : max c (-(8 / 5)) = c := max_eq_left (by linarith)
    rw [hmax]
    exact min_eq_left (by linarith)
  unfold processRot deadbandQ
  rw [hc, if_pos ⟨h1, h2⟩]

lemma deadbandVec_clipVec (v : Vec3) :
    deadbandVec (clipVec v) = ⟨processRot v.x, processRot v.y, processRot v.z⟩ :=
  rfl

/-! Helper lemmas about one tick of the loop. -/

lemma motionStep_menu (ik : Pose → Joints → Option Joints) (s : TeleopState)
    (d : TrackerSample) (hm : d.menu_button = true) :
    motionStep ik s d = ({ s with calibration := d.rot }, none) := by
  unfold motionStep
  simp [hm]

lemma motionStep_idle (ik : Pose → Joints → Option Joints) (s : TeleopState)
    (d : TrackerSample) (hm : d.menu_button = false) (ht : d.trigger = false) :
    motionStep ik s d = (s, none) := by
  unfold motionStep
  simp [hm, ht]

lemma motionStep_ik_fail (ik : Pose → Joints → Option Joints)
    (s : TeleopState) (d : TrackerSample)
    (hm : d.menu_button = false) (ht : d.trigger = true)
    (hik : ik (integratedPose s d) s.current_joint_positions = none) :
    motionStep ik s d = ({ s with desired := integratedPose s d }, none) := by
  unfold motionStep
  simp [hm, ht, hik]

lemma motionStep_ik_success (ik : Pose → Joints → Option Joints)
    (s : TeleopState) (d : TrackerSample) (jq : Joints)
    (hm : d.menu_button = false) (ht : d.trigger = true)
    (hik : ik (integratedPose s d) s.current_joint_positions = some jq) :
    motionStep ik s d =
      ({ s with desired := integratedPose s d, joint_solutions := jq,
                current_joint_positions := jq }, some jq) := by
  unfold motionStep
  simp [hm, ht, hik]

lemma gripperStep_eq (s : TeleopState) (d : TrackerSample) (rd : Bool) :
    gripperStep s d rd =
      if d.grip_button && rd then
        (some (if s.gripper_open then GripperCmd.grasp (7 / 200) (1 / 5) (3 / 50)
               else GripperCmd.moveTo (2 / 25) (1 / 5)), !s.gripper_open)
      else (none, s.gripper_open) := by
  unfold gripperStep do_grasp_async do_move_async
  cases hb : d.grip_button && rd <;> cases hg : s.gripper_open <;> simp [hb, hg]

lemma tick_none (ik : Pose → Joints → Option Joints) (s : TeleopState)
    (rd : Bool) :
    tick ik s none rd = ⟨{ s with last_pos := none }, none, none⟩ :=
  rfl

lemma tick_some (ik : Pose → Joints → Option Joints) (s : TeleopState)
    (d : TrackerSample) (rd : Bool) :
    tick ik s (some d) rd =
      ⟨{ (motionStep ik s d).1 with gripper_open := (gripperStep s d rd).2, last_pos := some d.pos },
       (motionStep ik s d).2, (gripperStep s d rd).1⟩ :=
  rfl

lemma integratedPose_rotOps (s : TeleopState) (d : TrackerSample) :
    (integratedPose s d).rotOps =
      s.desired.rotOps ++
        [rpyIncrement s.calibration (deadbandVec (clipVec ⟨d.p, d.q, d.r⟩))] :=
  rfl

lemma integratedPose_pos_none (s : TeleopState) (d : TrackerSample)
    (h : s.last_pos = none) : (integratedPose s d).pos = s.desired.pos := by
  simp [integratedPose, h, vsubSelf, cartIncrement, remapPos_vzero,
        matVec_vzero, vadd_vzero]

lemma integratedPose_pos_some (s : TeleopState) (d : TrackerSample) (lp : Vec3)
    (h : s.last_pos = some lp) :
    (integratedPose s d).pos =
      vadd s.desired.pos (cartIncrement s.calibration (vsub d.pos lp)) := by
  simp [integratedPose, h]

lemma steps_nil (ik : Pose → Joints → Option Joints) (s : TeleopState) :
    steps ik s [] = s :=
  rfl

lemma steps_cons (ik : Pose → Joints → Option Joints) (s : TeleopState)
    (i : Option TrackerSample × Bool) (rest : List (Option TrackerSample × Bool)) :
    steps ik s (i :: rest) = steps ik (tick ik s i.1 i.2).state rest :=
  rfl

lemma steps_absent (ik : Pose → Joints → Option Joints) (s : TeleopState)
    (n : ℕ) (b : Bool) :
    steps ik s (List.replicate (n + 1) (none, b)) =
      { s with last_pos := none } := by
  induction n generalizing s with
  | zero => rfl
  | succ n ih =>
      rw [List.replicate_succ, steps_cons, tick_none]
      exact ih _

lemma tick_last_pos (ik : Pose → Joints → Option Joints) (s : TeleopState)
    (d : TrackerSample) (rd : Bool) :
    (tick ik s (some d) rd).state.last_pos = some d.pos :=
  rfl

lemma tick_desired (ik : Pose → Joints → Option Joints) (s : TeleopState)
    (d : TrackerSample) (rd : Bool) :
    (tick ik s (some d) rd).state.desired =
      if d.menu_button then s.desired
      else if d.trigger then integratedPose s d
      else s.desired := by
  rw [tick_some]
  cases hm : d.menu_button
  · cases ht : d.trigger
    · rw [motionStep_idle ik s d hm ht]
      simp
    · cases hik : ik (integratedPose s d) s.current_joint_positions with
      | none =>
          rw [motionStep_ik_fail ik s d hm ht hik]
          simp
      | some jq =>
          rw [motionStep_ik_success ik s d jq hm ht hik]
          simp
  · rw [motionStep_menu ik s d hm]
    simp

lemma tick_calibration (ik : Pose → Joints → Option Joints) (s : TeleopState)
    (d : TrackerSample) (rd : Bool) :
    (tick ik s (some d) rd).state.calibration =
      if d.menu_button then d.rot else s.calibration := by
  rw [tick_some]
  cases hm : d.menu_button
  · cases ht : d.trigger
    · rw [motionStep_idle ik s d hm ht]
      simp
    · cases hik : ik (integratedPose s d) s.current_joint_positions with
      | none =>
          rw [motionStep_ik_fail ik s d hm ht hik]
          simp
      | some jq =>
          rw [motionStep_ik_success ik s d jq hm ht hik]
          simp
  · rw [motionStep_menu ik s d hm]
    simp

lemma tick_pos_of_none (ik : Pose → Joints → Option Joints) (s : TeleopState)
    (d : TrackerSample) (rd : Bool) (h : s.last_pos = none) :
    (tick ik s (some d) rd).state.desired.pos = s.desired.pos := by
  rw [tick_desired]
  cases hm : d.menu_button
  · cases ht : d.trigger
    · simp
    · simp [integratedPose_pos_none s d h]
  · simp

/-! Concrete inputs used for closed evaluations. -/

/-- Tick 1 of the concrete stream scenario: origin, trigger released. -/
def sampleA : TrackerSample :=
  { x := 0, y := 0, z := 0, p := 0, q := 0, r := 0,
    trigger := false, grip_button := false, menu_button := false,
    valid := true, rot := idMat }

/-- Tick 2 of the concrete stream scenario: x = 0.1, trigger held. -/
def sampleB : TrackerSample :=
  { sampleA with x := 1 / 10, trigger := true }

/-- Tick 3 of the concrete stream scenario: x = 0.2, trigger held. -/
def sampleC : TrackerSample :=
  { sampleA with x := 1 / 5, trigger := true }

/-- A sample with the trigger held and some angular rates set. -/
def trigSample : TrackerSample :=
  { sampleA with trigger := true, p := 1 / 20, q := 2, r := 0 }

/-- C1: on a control tick with the trigger held and the menu released
whose IK solve fails (the solver returns none), no joint command is
published, the stored joint solution and the IK seed are unchanged, and
the accumulated target pose is retained at the integrated (unreached)
target rather than rolled back, so the next tick integrates and solves
from the accumulated target. -/
theorem C1_ik_failure_holds_state (ik : Pose → Joints → Option Joints)
    (s : TeleopState) (d : TrackerSample) (rd : Bool)
    (hm : d.menu_button = false) (ht : d.trigger = true)
    (hik : ik (integratedPose s d) s.current_joint_positions = none) :
    (tick ik s (some d) rd).jointCmd = none ∧
    (tick ik s (some d) rd).state.joint_solutions = s.joint_solutions ∧
    (tick ik s (some d) rd).state.current_joint_positions =
      s.current_joint_positions ∧
    (tick ik s (some d) rd).state.desired = integratedPose s d := by
  have hms := motionStep_ik_fail ik s d hm ht hik
  simp [tick_some, hms]

/-- Witness for C1 at a concrete failing solve. -/
theorem C1_ik_failure_holds_state_witness :
    (tick ikNone (initState vzero []) (some trigSample) true).jointCmd = none ∧
    (tick ikNone (initState vzero []) (some trigSample) true).state.joint_solutions =
      (initState vzero []).joint_solutions ∧
    (tick ikNone (initState vzero []) (some trigSample) true).state.current_joint_positions =
      (initState vzero []).current_joint_positions ∧
    (tick ikNone (initState vzero []) (some trigSample) true).state.desired =
      integratedPose (initState vzero []) trigSample :=
  C1_ik_failure_holds_state ikNone (initState vzero []) trigSample true rfl rfl rfl

/-- C2: on every tick with the trigger held and the menu released, the
angular increment composed onto the target is the calibration rotation of
the remapped triple obtained by first clamping each of (p, q, r) to
[-1.6, 1.6] and then zeroing any component of magnitude at most 0.1
(processRot, in that order, before any remapping); every processed
component lies in [-1.6, 1.6], and a component inside the deadband
contributes exactly zero. -/
theorem C2_rot_clamp_deadband (ik : Pose → Joints → Option Joints)
    (s : TeleopState) (d : TrackerSample) (rd : Bool)
    (hm : d.menu_button = false) (ht : d.trigger = true) :
    (tick ik s (some d) rd).state.desired.rotOps =
      s.desired.rotOps ++
        [rpyIncrement s.calibration ⟨processRot d.p, processRot d.q, processRot d.r⟩] ∧
    (-(8 / 5) ≤ processRot d.p ∧ processRot d.p ≤ 8 / 5) ∧
    (-(8 / 5) ≤ processRot d.q ∧ processRot d.q ≤ 8 / 5) ∧
    (-(8 / 5) ≤ processRot d.r ∧ processRot d.r ≤ 8 / 5) ∧
    ((-(1 / 10) ≤ d.p ∧ d.p ≤ 1 / 10) → processRot d.p = 0) ∧
    ((-(1 / 10) ≤ d.q ∧ d.q ≤ 1 / 10) → processRot d.q = 0) ∧
    ((-(1 / 10) ≤ d.r ∧ d.r ≤ 1 / 10) → processRot d.r = 0) := by
  refine ⟨?_, ⟨processRot_lb _, processRot_ub _⟩, ⟨processRot_lb _, processRot_ub _⟩,
    ⟨processRot_lb _, processRot_ub _⟩,
    fun h => processRot_deadband _ h.1 h.2,
    fun h => processRot_deadband _ h.1 h.2,
    fun h => processRot_deadband _ h.1 h.2⟩
  rw [tick_desired]
  simp [hm, ht, integratedPose_rotOps, deadbandVec_clipVec]

/-- Witness for C2 at a concrete sample with one in-deadband and one
clamped angular-rate component. -/
theorem C2_rot_clamp_deadband_witness :
    (tick ikNone (initState vzero []) (some trigSample) true).state.desired.rotOps =
      (initState vzero []).desired.rotOps ++
        [rpyIncrement (initState vzero []).calibration
          ⟨processRot trigSample.p, processRot trigSample.q, processRot trigSample.r⟩] ∧
    (-(8 / 5) ≤ processRot trigSample.p ∧ processRot trigSample.p ≤ 8 / 5) ∧
    (-(8 / 5) ≤ processRot trigSample.q ∧ processRot trigSample.q ≤ 8 / 5) ∧
    (-(8 / 5) ≤ processRot trigSample.r ∧ processRot trigSample.r ≤ 8 / 5) ∧
    ((-(1 / 10) ≤ trigSample.p ∧ trigSample.p ≤ 1 / 10) → processRot trigSample.p = 0) ∧
    ((-(1 / 10) ≤ trigSample.q ∧ trigSample.q ≤ 1 / 10) → processRot trigSample.q = 0) ∧
    ((-(1 / 10) ≤ trigSample.r ∧ trigSample.r ≤ 1 / 10) → processRot trigSample.r = 0) :=
  C2_rot_clamp_deadband ikNone (initState vzero []) trigSample true rfl rfl

/-- C3: a tick whose slot content is a sample with valid = false behaves
exactly like an absent tick: the whole integration is short-circuited (the
state only changes by resetting the reference position to absent, and no
joint or gripper command is issued), and the next tick on a valid sample
re-acquires the reference, contributing zero position increment and
setting the reference to the position of the new sample. -/
theorem C3_invalid_sample_short_circuit (ik : Pose → Joints → Option Joints)
    (s : TeleopState) (d d2 : TrackerSample) (rd rd2 : Bool)
    (hv : d.valid = false) (hv2 : d2.valid = true) :
    (tickFromSlot ik s (some d) rd).state = { s with last_pos := none } ∧
    (tickFromSlot ik s (some d) rd).jointCmd = none ∧
    (tickFromSlot ik s (some d) rd).gripCmd = none ∧
    (tickFromSlot ik ((tickFromSlot ik s (some d) rd).state) (some d2) rd2).state.desired.pos =
      s.desired.pos ∧
    (tickFromSlot ik ((tickFromSlot ik s (some d) rd).state) (some d2) rd2).state.last_pos =
      some d2.pos := by
  have h1 : exposeSample (some d) = none := by
    simp [exposeSample, hv]
  have h2 : exposeSample (some d2) = some d2 := by
    simp [exposeSample, hv2]
  unfold tickFromSlot
  rw [h1, h2, tick_none]
  exact ⟨rfl, rfl, rfl, tick_pos_of_none ik _ d2 rd2 rfl, tick_last_pos ik _ d2 rd2⟩

/-- Witness for C3 at a concrete invalid sample followed by a valid one. -/
theorem C3_invalid_sample_short_circuit_witness :
    (tickFromSlot ikNone (initState vzero []) (some { sampleA with valid := false }) true).state =
      { initState vzero [] with last_pos := none } ∧
    (tickFromSlot ikNone (initState vzero []) (some { sampleA with valid := false }) true).jointCmd = none ∧
    (tickFromSlot ikNone (initState vzero []) (some { sampleA with valid := false }) true).gripCmd = none ∧
    (tickFromSlot ikNone ((tickFromSlot ikNone (initState vzero []) (some { sampleA with valid := false }) true).state) (some sampleB) false).state.desired.pos =
      (initState vzero []).desired.pos ∧
    (tickFromSlot ikNone ((tickFromSlot ikNone (initState vzero []) (some { sampleA with valid := false }) true).state) (some sampleB) false).state.last_pos =
      some sampleB.pos :=
  C3_invalid_sample_short_circuit ikNone (initState vzero [])
    { sampleA with valid := false } sampleB true false rfl rfl

/-- C9: on every tick whose sample has the menu button pressed, the
calibration matrix is replaced by the rotation matrix of the sample, while
the target pose, the joint solution, and the IK seed are unchanged and no
joint command is published, even if the trigger is also pressed; moreover
the whole tick is independent of the IK solver, so no solve influences it. -/
theorem C9_menu_calibration_tick (ik ik2 : Pose → Joints → Option Joints)
    (s : TeleopState) (d : TrackerSample) (rd : Bool)
    (hm : d.menu_button = true) :
    (tick ik s (some d) rd).state.calibration = d.rot ∧
    (tick ik s (some d) rd).state.desired = s.desired ∧
    (tick ik s (some d) rd).state.joint_solutions = s.joint_solutions ∧
    (tick ik s (some d) rd).state.current_joint_positions =
      s.current_joint_positions ∧
    (tick ik s (some d) rd).jointCmd = none ∧
    tick ik s (some d) rd = tick ik2 s (some d) rd := by
  have h1 := motionStep_menu ik s d hm
  have h2 := motionStep_menu ik2 s d hm
  simp [tick_some, h1, h2]

/-- Witness for C9 at a concrete calibration tick with the trigger also
pressed. -/
theorem C9_menu_calibration_tick_witness :
    (tick ikNone (initState vzero []) (some { trigSample with menu_button := true }) true).state.calibration =
      ({ trigSample with menu_button := true } : TrackerSample).rot ∧
    (tick ikNone (initState vzero []) (some { trigSample with menu_button := true }) true).state.desired =
      (initState vzero []).desired ∧
    (tick ikNone (initState vzero []) (some { trigSample with menu_button := true }) true).state.joint_solutions =
      (initState vzero []).joint_solutions ∧
    (tick ikNone (initState vzero []) (some { trigSample with menu_button := true }) true).state.current_joint_positions =
      (initState vzero []).current_joint_positions ∧
    (tick ikNone (initState vzero []) (some { trigSample with menu_button := true }) true).jointCmd = none ∧
    tick ikNone (initState vzero []) (some { trigSample with menu_button := true }) true =
      tick (fun p _ => some [p.pos.x]) (initState vzero []) (some { trigSample with menu_button := true }) true :=
  C9_menu_calibration_tick ikNone (fun p _ => some [p.pos.x]) (initState vzero [])
    { trigSample with menu_button := true } true rfl

/-- C10: no clamping or deadband is applied to the position delta: on a
tick with the trigger held, the menu released, and a present reference
position, the target position advances by exactly the calibration rotation
of the remapped, velocity-scaled, full componentwise difference between
the position of the current sample and the reference, whatever its
magnitude. -/
theorem C10_position_delta_unclamped (ik : Pose → Joints → Option Joints)
    (s : TeleopState) (d : TrackerSample) (rd : Bool) (lp : Vec3)
    (hm : d.menu_button = false) (ht : d.trigger = true)
    (hlp : s.last_pos = some lp) :
    (tick ik s (some d) rd).state.desired.pos =
      vadd s.desired.pos (matVec s.calibration (remapPos (vsub d.pos lp))) := by
  rw [tick_desired]
  simp only [hm, ht, Bool.false_eq_true, if_false, if_true]
  rw [integratedPose_pos_some s d lp hlp]
  simp [cartIncrement]

/-- Witness for C10 at a delta of magnitude 1000, far beyond any clamp. -/
theorem C10_position_delta_unclamped_witness :
    (tick ikNone { initState vzero [] with last_pos := some vzero }
        (some { sampleA with x := 1000, trigger := true }) true).state.desired.pos =
      vadd ({ initState vzero [] with last_pos := some vzero } : TeleopState).desired.pos
        (matVec ({ initState vzero [] with last_pos := some vzero } : TeleopState).calibration
          (remapPos (vsub ({ sampleA with x := 1000, trigger := true } : TrackerSample).pos vzero))) :=
  C10_position_delta_unclamped ikNone { initState vzero [] with last_pos := some vzero }
    { sampleA with x := 1000, trigger := true } true vzero rfl rfl rfl

/-- C4 counterexample: the loop has no rising-edge detection. Holding the
grip button across two consecutive ticks while each previous result polls
done makes the second tick issue a new request as well (two requests in a
row from a merely held button), refuting issuance only on a rising edge. -/
theorem C4_counterexample_held_button :
    (tick ikNone (initState vzero []) (some heldSample) true).gripCmd =
      some (GripperCmd.grasp (7 / 200) (1 / 5) (3 / 50)) ∧
    (tick ikNone (tick ikNone (initState vzero []) (some heldSample) true).state
        (some heldSample) true).gripCmd =
      some (GripperCmd.moveTo (2 / 25) (1 / 5)) := by
  have h1 : (tick ikNone (initState vzero []) (some heldSample) true).state.gripper_open = false := by
    simp [tick_some, gripperStep_eq, heldSample, initState]
  constructor
  · simp [tick_some, gripperStep_eq, heldSample, initState]
  · simp [tick_some, gripperStep_eq, heldSample, initState, h1]

/-- C4 (amended): a gripper actuation request is issued on exactly the
ticks where the grip button is pressed and the previous result future
polls done-or-cancelled, with no edge condition on the previous sample: a
held button issues a new toggling request each time the prior result
completes, and the open/closed intent flips exactly on issuing ticks. -/
theorem C4_gripper_level_triggered (ik : Pose → Joints → Option Joints)
    (s : TeleopState) (d : TrackerSample) (rd : Bool) :
    (tick ik s (some d) rd).gripCmd =
      (if d.grip_button && rd then
        some (if s.gripper_open then GripperCmd.grasp (7 / 200) (1 / 5) (3 / 50)
              else GripperCmd.moveTo (2 / 25) (1 / 5))
       else none) ∧
    (tick ik s (some d) rd).state.gripper_open =
      (if d.grip_button && rd then !s.gripper_open else s.gripper_open) := by
  cases hb : d.grip_button && rd <;> cases hg : s.gripper_open <;>
    simp [tick_some, gripperStep_eq, hb, hg]

/-- C7: a grip-button press while the previous result future polls
not-done produces no actuator request and leaves the open/closed intent
unchanged; once the result polls done, a press produces exactly one
request, a grasp when the intent is open and a move-to-open-width when it
is closed, and the intent flag toggles. -/
theorem C7_pending_drop_single_issue (ik : Pose → Joints → Option Joints)
    (s : TeleopState) (d : TrackerSample) (hpress : d.grip_button = true) :
    (tick ik s (some d) false).gripCmd = none ∧
    (tick ik s (some d) false).state.gripper_open = s.gripper_open ∧
    (tick ik s (some d) true).gripCmd =
      some (if s.gripper_open then GripperCmd.grasp (7 / 200) (1 / 5) (3 / 50)
            else GripperCmd.moveTo (2 / 25) (1 / 5)) ∧
    (tick ik s (some d) true).state.gripper_open = !s.gripper_open := by
  cases hg : s.gripper_open <;>
    simp [tick_some, gripperStep_eq, hpress, hg]

/-- Witness for C7 at a concrete held-button sample. -/
theorem C7_pending_drop_single_issue_witness :
    (tick ikNone (initState vzero []) (some heldSample) false).gripCmd = none ∧
    (tick ikNone (initState vzero []) (some heldSample) false).state.gripper_open =
      (initState vzero []).gripper_open ∧
    (tick ikNone (initState vzero []) (some heldSample) true).gripCmd =
      some (if (initState vzero []).gripper_open
            then GripperCmd.grasp (7 / 200) (1 / 5) (3 / 50)
            else GripperCmd.moveTo (2 / 25) (1 / 5)) ∧
    (tick ikNone (initState vzero []) (some heldSample) true).state.gripper_open =
      !(initState vzero []).gripper_open :=
  C7_pending_drop_single_issue ikNone (initState vzero []) heldSample rfl

/-- C5: across any run of ticks whose samples all have the trigger
released and the menu button released, the target pose is never mutated
(the final target equals the initial one for every such run, hence after
every prefix), while the reference position ends at the position of the
latest sample, so a later trigger press integrates no jump. -/
theorem C5_trigger_released_no_mutation (ik : Pose → Joints → Option Joints)
    (s : TeleopState) (inputs : List (TrackerSample × Bool))
    (p : TrackerSample × Bool)
    (h : ∀ i ∈ inputs ++ [p], i.1.trigger = false ∧ i.1.menu_button = false) :
    (steps ik s ((inputs ++ [p]).map fun i => (some i.1, i.2))).desired =
      s.desired ∧
    (steps ik s ((inputs ++ [p]).map fun i => (some i.1, i.2))).last_pos =
      some p.1.pos := by
  induction inputs generalizing s with
  | nil =>
      have hp := h p (by simp)
      simp only [List.nil_append, List.map_cons, List.map_nil, steps_cons,
        steps_nil]
      exact ⟨by rw [tick_desired]; simp [hp.1, hp.2], tick_last_pos ik s p.1 p.2⟩
  | cons q rest ih =>
      have hq := h q (by simp)
      have h2 : ∀ i ∈ rest ++ [p], i.1.trigger = false ∧ i.1.menu_button = false := by
        intro i hi
        exact h i (by simp only [List.cons_append, List.mem_cons]; exact Or.inr hi)
      simp only [List.cons_append, List.map_cons, steps_cons]
      obtain ⟨ha, hb⟩ := ih ((tick ik s (some q.1) q.2).state) h2
      refine ⟨?_, hb⟩
      rw [ha, tick_desired]
      simp [hq.1, hq.2]

/-- Witness for C5 at a concrete two-tick trigger-released run. -/
theorem C5_trigger_released_no_mutation_witness :
    (steps ikNone (initState vzero [])
        (([(sampleA, false)] ++ [(sampleA, true)]).map fun i => (some i.1, i.2))).desired =
      (initState vzero []).desired ∧
    (steps ikNone (initState vzero [])
        (([(sampleA, false)] ++ [(sampleA, true)]).map fun i => (some i.1, i.2))).last_pos =
      some sampleA.pos :=
  C5_trigger_released_no_mutation ikNone (initState vzero [])
    [(sampleA, false)] (sampleA, true)
    (by
      intro i hi
      simp only [List.cons_append, List.nil_append, List.mem_cons,
        List.mem_singleton] at hi
      rcases hi with h1 | h1 | h1
      · subst h1; exact ⟨rfl, rfl⟩
      · subst h1; exact ⟨rfl, rfl⟩
      · cases h1)

/-- C6: after one or more absent-sample ticks, the reference position is
absent at the start of the next tick; a tick on any present sample then
contributes zero position increment to the target pose whatever the
position of the sample is, and sets the reference to that position. -/
theorem C6_gap_reacquisition_zero_increment (ik : Pose → Joints → Option Joints)
    (s : TeleopState) (n : ℕ) (b : Bool) (d : TrackerSample) (rd : Bool)
    (hn : 1 ≤ n) :
    (steps ik s (List.replicate n (none, b))).last_pos = none ∧
    (tick ik (steps ik s (List.replicate n (none, b))) (some d) rd).state.desired.pos =
      (steps ik s (List.replicate n (none, b))).desired.pos ∧
    (tick ik (steps ik s (List.replicate n (none, b))) (some d) rd).state.last_pos =
      some d.pos := by
  obtain ⟨m, rfl⟩ : ∃ m, n = m + 1 := ⟨n - 1, (Nat.succ_pred_eq_of_pos hn).symm⟩
  rw [steps_absent]
  exact ⟨rfl, tick_pos_of_none ik _ d rd rfl, tick_last_pos ik _ d rd⟩

/-- Witness for C6: one absent tick, then a far-away valid sample. -/
theorem C6_gap_reacquisition_zero_increment_witness :
    (steps ikNone (initState vzero []) (List.replicate 1 (none, true))).last_pos = none ∧
    (tick ikNone (steps ikNone (initState vzero []) (List.replicate 1 (none, true)))
        (some { sampleB with x := 500 }) false).state.desired.pos =
      (steps ikNone (initState vzero []) (List.replicate 1 (none, true))).desired.pos ∧
    (tick ikNone (steps ikNone (initState vzero []) (List.replicate 1 (none, true)))
        (some { sampleB with x := 500 }) false).state.last_pos =
      some ({ sampleB with x := 500 } : TrackerSample).pos :=
  C6_gap_reacquisition_zero_increment ikNone (initState vzero []) 1 true
    { sampleB with x := 500 } false (le_refl 1)

/-- C8: for the stream [(x=0, trigger off), (x=0.1, trigger on),
(x=0.2, trigger on)] with velocity_scale 0.4 and identity calibration,
tick 1 contributes zero position increment (the reference is seeded),
tick 2 adds the axis-remapped increment derived from a delta of 0.1 in x
scaled by 0.4, and tick 3 adds the increment derived from a delta of 0.1
again, not 0.2, because the reference position advances every tick; this
increment evaluates to (-0.04, 0, 0). -/
theorem C8_concrete_stream_scenario (ik : Pose → Joints → Option Joints)
    (p0 : Vec3) (j : Joints) (b1 b2 b3 : Bool) :
    (steps ik (initState p0 j) [(some sampleA, b1)]).desired.pos = p0 ∧
    (steps ik (initState p0 j)
        [(some sampleA, b1), (some sampleB, b2)]).desired.pos =
      vadd p0 (cartIncrement idMat ⟨1 / 10, 0, 0⟩) ∧
    (steps ik (initState p0 j)
        [(some sampleA, b1), (some sampleB, b2), (some sampleC, b3)]).desired.pos =
      vadd (steps ik (initState p0 j)
          [(some sampleA, b1), (some sampleB, b2)]).desired.pos
        (cartIncrement idMat ⟨1 / 10, 0, 0⟩) ∧
    cartIncrement idMat ⟨1 / 10, 0, 0⟩ = ⟨-(1 / 25), 0, 0⟩ := by
  simp only [steps_cons, steps_nil]
  set t1 := (tick ik (initState p0 j) (some sampleA, b1).1 (some sampleA, b1).2).state with ht1
  set t2 := (tick ik t1 (some sampleB, b2).1 (some sampleB, b2).2).state with ht2
  set t3 := (tick ik t2 (some sampleC, b3).1 (some sampleC, b3).2).state with ht3
  have h1d : t1.desired = (initState p0 j).desired := by
    rw [ht1, tick_desired]
    simp [sampleA]
  have h1pos : t1.desired.pos = p0 := by
    rw [h1d]
    rfl
  have h1lp : t1.last_pos = some sampleA.pos := by
    rw [ht1]
    exact tick_last_pos ik (initState p0 j) sampleA b1
  have h1cal : t1.calibration = idMat := by
    rw [ht1, tick_calibration]
    simp [sampleA, initState]
  have hv1 : vsub sampleB.pos sampleA.pos = ⟨1 / 10, 0, 0⟩ := by
    simp [vsub, sampleB, sampleA, TrackerSample.pos]
  have h2d : t2.desired = integratedPose t1 sampleB := by
    rw [ht2, tick_desired]
    simp [sampleB, sampleA]
  have h2pos : t2.desired.pos = vadd p0 (cartIncrement idMat ⟨1 / 10, 0, 0⟩) := by
    rw [h2d, integratedPose_pos_some t1 sampleB sampleA.pos h1lp, h1pos, h1cal, hv1]
  have h2lp : t2.last_pos = some sampleB.pos := by
    rw [ht2]
    exact tick_last_pos ik t1 sampleB b2
  have h2cal : t2.calibration = idMat := by
    rw [ht2, tick_calibration]
    simp [sampleB, sampleA, h1cal]
  have hv2 : vsub sampleC.pos sampleB.pos = ⟨1 / 10, 0, 0⟩ := by
    simp only [vsub, sampleC, sampleB, sampleA, TrackerSample.pos]
    norm_num
  have h3d : t3.desired = integratedPose t2 sampleC := by
    rw [ht3, tick_desired]
    simp [sampleC, sampleA]
  refine ⟨h1pos, h2pos, ?_, ?_⟩
  · rw [h3d, integratedPose_pos_some t2 sampleC sampleB.pos h2lp, h2cal, hv2]
  · simp only [cartIncrement, matVec, remapPos, idMat, dot, velocity_scale]
    norm_num
